import Mathlib

/-!
# Verification of the RepRapFirmware input-shaping planner (AxisShaper)

Shallow embedding of `AxisShaper::Configure` and `AxisShaper::PlanShaping`
from `InputShaper.cpp` (AxisShaper.cpp).  Machine floats are modelled by
exact rationals (`ℚ`); the two transcendental scalars that `Configure`
computes once at its top (`dampedFrequency = frequency·√(1−ζ²)` and
`k = exp(−ζπ/√(1−ζ²))`) are passed to the embedded functions as explicit
arguments, with their real-valued definitions given separately over `ℝ`
so that theorems can instantiate them exactly (e.g. at ζ = 0).
-/

namespace AxisShaper

/-- Modelled from the spec: `StepTimer::StepClockRate` (the step-timer tick
rate, declared in StepTimer.h which is not part of the sources here); the
testable scenarios of the spec fix it at 750000 ticks per second. -/
def StepClockRate : ℚ := 750000

/-- Modelled from the spec: `MaxExtraImpulses` (array bound of
`coefficients` and `durations`, declared in AxisShaper.h); the spec gives
`numExtraImpulses ∈ {0..4}`. -/
def MaxExtraImpulses : ℕ := 4

/-- The closed set of shaper types (`InputShaperType`, declared in
InputShaperPlan.h; the variants are those listed in the §6 table of the spec). -/
inductive InputShaperType where
  | none
  | daa
  | zvd
  | zvdd
  | ei2
  | ei3
  | custom
deriving DecidableEq, Repr

/-- Modelled from the spec: the `InputShaperType(const char*)` constructor
together with `IsValid()`; a name is valid exactly when it is one of the
seven type names of the §6 table of the spec. -/
def InputShaperType.parse (s : String) : Option InputShaperType :=
  if s = "none" then some InputShaperType.none
  else if s = "daa" then some InputShaperType.daa
  else if s = "zvd" then some InputShaperType.zvd
  else if s = "zvdd" then some InputShaperType.zvdd
  else if s = "ei2" then some InputShaperType.ei2
  else if s = "ei3" then some InputShaperType.ei3
  else if s = "custom" then some InputShaperType.custom
  else Option.none

/-- The persistent state of the `AxisShaper` object: the configured
parameters, the synthesised impulse table and the derived clock values
(fields of class `AxisShaper`). -/
structure ShaperState where
  frequency : ℚ
  zeta : ℚ
  minimumAcceleration : ℚ
  type : InputShaperType
  numExtraImpulses : ℕ
  coefficients : List ℚ
  durations : List ℚ
  totalDuration : ℚ
  clocksLostAtStart : ℚ
  clocksLostAtEnd : ℚ
  totalShapingClocks : ℚ
  overlappedCoefficients : List ℚ
  overlappedAverageAcceleration : ℚ
deriving DecidableEq, Repr

/-- Modelled from the spec: the parameters of an M593 command as delivered
by the external `GCodeBuffer` parser (`Seen`/`GetFValue`/`GetFloatArray`
live outside these sources).  Each letter is present or absent; `H` and
`T` carry whole float arrays and their element counts are the list
lengths. -/
structure ConfigArgs where
  F : Option ℚ
  L : Option ℚ
  S : Option ℚ
  P : Option String
  H : Option (List ℚ)
  T : Option (List ℚ)

/-- Result of `Configure`: `ok`/`error reply` mirror `GCodeResult`;
`thrown` stands for a `GCodeException` raised by the parser helpers
(`MustSee`, over-long arrays), which aborts the command without a reply
string. -/
inductive ConfigOutcome where
  | ok
  | error (reply : String)
  | thrown
deriving DecidableEq, Repr

/-- The loop of `Configure` at lines 196-205: one pass over
`i ∈ [0, numExtraImpulses−1)` accumulating
`(totalDuration, tLostAtStart, tLostAtEnd)`. -/
def shaperDerivedLoop (coefficients durations : List ℚ) (numExtraImpulses : ℕ) : ℚ × ℚ × ℚ :=
  (List.range (numExtraImpulses - 1)).foldl
    (fun acc i =>
      (acc.1 + durations.getD i 0,
       acc.2.1 + (1 - coefficients.getD i 0) * durations.getD i 0,
       acc.2.2 + coefficients.getD i 0 * durations.getD i 0))
    (0, 0, 0)

/-- The loop of `Configure` at lines 211-226: one pass over `i ∈ [0, 2n)`
building the raw overlapped table and accumulating `maxVal` and
`totalAcceleration`.  The accumulator starts at `maxVal = 0.0` and the
update is guarded by `maxVal > val`, exactly as in the source. -/
def overlappedLoop (coefficients : List ℚ) (numExtraImpulses : ℕ) : List ℚ × ℚ × ℚ :=
  (List.range (2 * numExtraImpulses)).foldl
    (fun acc i =>
      let val0 : ℚ := if i < numExtraImpulses then coefficients.getD i 0 else 1
      let val : ℚ := if numExtraImpulses ≤ i then val0 - coefficients.getD (i - numExtraImpulses) 0 else val0
      (acc.1 ++ [val],
       if acc.2.1 > val then val else acc.2.1,
       acc.2.2 + val))
    ([], 0, 0)

/-- Lines 196-238 of `Configure`: after the per-type switch has set
`coefficients`, `durations` and `numExtraImpulses`, compute the derived
durations/clocks, the overlapped table (scaled by `1/maxVal`) and
`overlappedAverageAcceleration`, then return `GCodeResult::ok`. -/
def finishSynthesis (s : ShaperState) : ShaperState × ConfigOutcome :=
  let t := shaperDerivedLoop s.coefficients s.durations s.numExtraImpulses
  let ov := overlappedLoop s.coefficients s.numExtraImpulses
  let scaling : ℚ := 1 / ov.2.1
  ({ s with
      totalDuration := t.1,
      clocksLostAtStart := t.2.1 * StepClockRate,
      clocksLostAtEnd := t.2.2 * StepClockRate,
      totalShapingClocks := t.1 * StepClockRate,
      overlappedCoefficients := ov.1.map (fun v => v * scaling),
      overlappedAverageAcceleration :=
        (ov.2.2 * scaling) / (s.numExtraImpulses : ℚ) + (s.numExtraImpulses : ℚ) },
   ConfigOutcome.ok)

/-- The EI2 cumulative coefficients (lines 165-169): degree-3 polynomials
in ζ with the literal constants of the source. -/
def ei2Coefficients (zeta : ℚ) : List ℚ :=
  let zetaSquared := zeta * zeta
  let zetaCubed := zetaSquared * zeta
  [(0.16054) + (0.76699) * zeta + (2.26560) * zetaSquared + (-1.22750) * zetaCubed,
   (0.16054 + 0.33911) + (0.76699 + 0.45081) * zeta + (2.26560 - 2.58080) * zetaSquared + (-1.22750 + 1.73650) * zetaCubed,
   (0.16054 + 0.33911 + 0.34089) + (0.76699 + 0.45081 - 0.61533) * zeta + (2.26560 - 2.58080 - 0.68765) * zetaSquared + (-1.22750 + 1.73650 + 0.42261) * zetaCubed]

/-- The EI2 inter-impulse durations (lines 171-173), divided by the damped
frequency. -/
def ei2Durations (zeta dampedFrequency : ℚ) : List ℚ :=
  let zetaSquared := zeta * zeta
  let zetaCubed := zetaSquared * zeta
  [((0.49890) + (0.16270) * zeta + (-0.54262) * zetaSquared + (6.16180) * zetaCubed) / dampedFrequency,
   ((0.99748 - 0.49890) + (0.18382 - 0.16270) * zeta + (-1.58270 + 0.54262) * zetaSquared + (8.17120 - 6.16180) * zetaCubed) / dampedFrequency,
   ((1.49920 - 0.99748) + (-0.09297 - 0.18382) * zeta + (-0.28338 + 1.58270) * zetaSquared + (1.85710 - 8.17120) * zetaCubed) / dampedFrequency]

/-- The EI3 cumulative coefficients (lines 182-185). -/
def ei3Coefficients (zeta : ℚ) : List ℚ :=
  let zetaSquared := zeta * zeta
  let zetaCubed := zetaSquared * zeta
  [(0.11275) + 0.76632 * zeta + (3.29160) * zetaSquared + (-1.44380) * zetaCubed,
   (0.11275 + 0.23698) + (0.76632 + 0.61164) * zeta + (3.29160 - 2.57850) * zetaSquared + (-1.44380 + 4.85220) * zetaCubed,
   (0.11275 + 0.23698 + 0.30008) + (0.76632 + 0.61164 - 0.19062) * zeta + (3.29160 - 2.57850 - 2.14560) * zetaSquared + (-1.44380 + 4.85220 + 0.13744) * zetaCubed,
   (0.11275 + 0.23698 + 0.30008 + 0.23775) + (0.76632 + 0.61164 - 0.19062 - 0.73297) * zeta + (3.29160 - 2.57850 - 2.14560 + 0.46885) * zetaSquared + (-1.44380 + 4.85220 + 0.13744 - 2.08650) * zetaCubed]

/-- The EI3 inter-impulse durations (lines 187-190). -/
def ei3Durations (zeta dampedFrequency : ℚ) : List ℚ :=
  let zetaSquared := zeta * zeta
  let zetaCubed := zetaSquared * zeta
  [((0.49974) + (0.23834) * zeta + (0.44559) * zetaSquared + (12.4720) * zetaCubed) / dampedFrequency,
   ((0.99849 - 0.49974) + (0.29808 - 0.23834) * zeta + (-2.36460 - 0.44559) * zetaSquared + (23.3990 - 12.4720) * zetaCubed) / dampedFrequency,
   ((1.49870 - 0.99849) + (0.10306 - 0.29808) * zeta + (-2.01390 + 2.36460) * zetaSquared + (17.0320 - 23.3990) * zetaCubed) / dampedFrequency,
   ((1.99960 - 1.49870) + (-0.28231 - 0.10306) * zeta + (0.61536 + 2.01390) * zetaSquared + (5.40450 - 17.0320) * zetaCubed) / dampedFrequency]

/-- The per-type switch of `Configure` (lines 97-194) followed by the
synthesis tail.  `dampedFrequency` and `k` are the two scalars computed at
lines 94-96 (see `dampedFrequencyOf` and `expDecayOf` over `ℝ`).
Parser interactions of the `custom` arm are modelled from the spec:
`MustSee` of `H` throws when `H` is absent, `GetFloatArray` throws when more
than `MaxExtraImpulses` amplitudes are supplied and otherwise reports the
element count of the supplied array. -/
def ConfigureSwitch (s : ShaperState) (gb : ConfigArgs) (dampedFrequency k : ℚ) : ShaperState × ConfigOutcome :=
  match s.type with
  | InputShaperType.none => finishSynthesis { s with numExtraImpulses := 0 }
  | InputShaperType.custom =>
      match gb.H with
      | some h =>
          if MaxExtraImpulses < h.length then (s, ConfigOutcome.thrown)
          else
            let s1 := { s with coefficients := h }
            match gb.T with
            | some t =>
                if t.length ≠ h.length then
                  ({ s1 with type := InputShaperType.none }, ConfigOutcome.error "Too few durations given")
                else finishSynthesis { s1 with durations := t, numExtraImpulses := h.length }
            | _ => finishSynthesis { s1 with durations := List.replicate h.length (0.5 / s.frequency), numExtraImpulses := h.length }
      | _ => (s, ConfigOutcome.thrown)
  | InputShaperType.daa =>
      finishSynthesis { s with durations := [1 / dampedFrequency], numExtraImpulses := 0 }
  | InputShaperType.zvd =>
      let j := 1 + 2 * k + k * k
      finishSynthesis { s with
        coefficients := [1 / j, 1 / j + 2 * k / j],
        durations := [0.5 / dampedFrequency, 0.5 / dampedFrequency],
        numExtraImpulses := 2 }
  | InputShaperType.zvdd =>
      let j := 1 + 3 * (k + k * k) + k * (k * k)
      finishSynthesis { s with
        coefficients := [1 / j, 1 / j + 3 * k / j, 1 / j + 3 * k / j + 3 * (k * k) / j],
        durations := [0.5 / dampedFrequency, 0.5 / dampedFrequency, 0.5 / dampedFrequency],
        numExtraImpulses := 3 }
  | InputShaperType.ei2 =>
      finishSynthesis { s with
        coefficients := ei2Coefficients s.zeta,
        durations := ei2Durations s.zeta dampedFrequency,
        numExtraImpulses := 3 }
  | InputShaperType.ei3 =>
      finishSynthesis { s with
        coefficients := ei3Coefficients s.zeta,
        durations := ei3Durations s.zeta dampedFrequency,
        numExtraImpulses := 4 }

/-- `AxisShaper::Configure` (lines 48-239), on a DAA-capable build
(`SUPPORT_DAA`): apply the `F`/`L`/`S` parameters in order, handle `P`
(an invalid name errors immediately; with parameters but no type ever set
the type defaults to `daa`), then, when anything was seen, run the
synthesis switch.  `L` is clamped up to 1.0 as in
`max<float>(gb.GetFValue(), 1.0)`; the in-range checks that
`GetLimitedFValue` performs for `F` and `S` happen in the external parser
and are not repeated here. -/
def Configure (s : ShaperState) (gb : ConfigArgs) (dampedFrequency k : ℚ) : ShaperState × ConfigOutcome :=
  let seen := gb.F.isSome || gb.L.isSome || gb.S.isSome
  let s1 := match gb.F with | some f => { s with frequency := f } | _ => s
  let s2 := match gb.L with | some l => { s1 with minimumAcceleration := max l 1 } | _ => s1
  let s3 := match gb.S with | some z => { s2 with zeta := z } | _ => s2
  match gb.P with
  | some name =>
      match InputShaperType.parse name with
      | some newType => ConfigureSwitch { s3 with type := newType } gb dampedFrequency k
      | _ => (s3, ConfigOutcome.error ("Unsupported input shaper type \x27" ++ name ++ "\x27"))
  | _ =>
      if seen then
        let s4 := if s3.type = InputShaperType.none then { s3 with type := InputShaperType.daa } else s3
        ConfigureSwitch s4 gb dampedFrequency k
      else (s3, ConfigOutcome.ok)

/-- The initial `AxisShaper` state (constructor at lines 38-45).  Modelled
from the spec: the default frequency/damping/minimum-acceleration values
live in AxisShaper.h; their concrete values are irrelevant to the claims
below. -/
def initialShaperState : ShaperState :=
  { frequency := 40, zeta := 0.1, minimumAcceleration := 10,
    type := InputShaperType.none, numExtraImpulses := 0,
    coefficients := [], durations := [],
    totalDuration := 0, clocksLostAtStart := 0, clocksLostAtEnd := 0,
    totalShapingClocks := 0, overlappedCoefficients := [],
    overlappedAverageAcceleration := 0 }

/-- `sqrtOneMinusZetaSquared` and `dampedFrequency` (lines 94-95), over
`ℝ` since they involve a square root (hence not executable, unlike the
rest of the embedding). -/
noncomputable def dampedFrequencyOf (frequency zeta : ℝ) : ℝ :=
  frequency * Real.sqrt (1 - zeta * zeta)

/-- `k = expf(-zeta * Pi/sqrtOneMinusZetaSquared)` (line 96), over `ℝ`
(not executable for the same reason). -/
noncomputable def expDecayOf (zeta : ℝ) : ℝ :=
  Real.exp (-zeta * Real.pi / Real.sqrt (1 - zeta * zeta))

/-- The slice of a `DDA` (queued move) that `PlanShaping` reads and
writes: the kinematic record (`startSpeed` … `totalDistance`, with
`accelDistance`/`decelDistance` the `beforePrepare` fields) plus the
observable state of the neighbouring moves
(`prev.state ∈ {frozen, executing}`, `prev.flags.wasAccelOnlyMove`,
`next.state = provisional`, `next.IsDecelerationMove()`). -/
structure DDA where
  startSpeed : ℚ
  topSpeed : ℚ
  endSpeed : ℚ
  acceleration : ℚ
  deceleration : ℚ
  totalDistance : ℚ
  accelDistance : ℚ
  decelDistance : ℚ
  prevFrozenOrExecuting : Bool
  prevWasAccelOnlyMove : Bool
  nextProvisional : Bool
  nextIsDecelerationMove : Bool
deriving DecidableEq, Repr

/-- The fields of `BasicPrepParams` that the impulse path of
`PlanShaping` reads and mutates (set up by `params.SetFromDDA(dda)`,
which lives outside these sources). -/
structure PrepParams where
  accelDistance : ℚ
  decelStartDistance : ℚ
  accelClocks : ℚ
  decelClocks : ℚ
deriving DecidableEq, Repr

/-- The four shaping booleans of `InputShaperPlan` (the segment counts are
not needed by the claims below). -/
structure InputShaperPlan where
  shapeAccelStart : Bool
  shapeAccelEnd : Bool
  shapeDecelStart : Bool
  shapeDecelEnd : Bool
deriving DecidableEq, Repr

/-- `AxisShaper::GetExtraAccelStartDistance` (lines 706-718): fold over
the impulses with accumulator `(extraDistance, u)`. -/
def GetExtraAccelStartDistance (s : ShaperState) (dda : DDA) : ℚ :=
  ((List.range s.numExtraImpulses).foldl
    (fun (acc : ℚ × ℚ) seg =>
      let segTime := s.durations.getD seg 0
      let speedChange := s.coefficients.getD seg 0 * dda.acceleration * segTime
      (acc.1 + (1 - s.coefficients.getD seg 0) * (acc.2 + 0.5 * speedChange) * segTime,
       acc.2 + speedChange))
    (0, dda.startSpeed)).1

/-- `AxisShaper::GetExtraAccelEndDistance` (lines 721-733): fold from the
last impulse down to the first with accumulator `(extraDistance, v)`. -/
def GetExtraAccelEndDistance (s : ShaperState) (dda : DDA) : ℚ :=
  (((List.range s.numExtraImpulses).reverse).foldl
    (fun (acc : ℚ × ℚ) seg =>
      let segTime := s.durations.getD seg 0
      let speedChange := (1 - s.coefficients.getD seg 0) * dda.acceleration * segTime
      (acc.1 + s.coefficients.getD seg 0 * (acc.2 - 0.5 * speedChange) * segTime,
       acc.2 - speedChange))
    (0, dda.topSpeed)).1

/-- `AxisShaper::GetExtraDecelStartDistance` (lines 736-748). -/
def GetExtraDecelStartDistance (s : ShaperState) (dda : DDA) : ℚ :=
  ((List.range s.numExtraImpulses).foldl
    (fun (acc : ℚ × ℚ) seg =>
      let segTime := s.durations.getD seg 0
      let speedChange := s.coefficients.getD seg 0 * dda.deceleration * segTime
      (acc.1 + (1 - s.coefficients.getD seg 0) * (acc.2 - 0.5 * speedChange) * segTime,
       acc.2 - speedChange))
    (0, dda.topSpeed)).1

/-- `AxisShaper::GetExtraDecelEndDistance` (lines 751-763). -/
def GetExtraDecelEndDistance (s : ShaperState) (dda : DDA) : ℚ :=
  (((List.range s.numExtraImpulses).reverse).foldl
    (fun (acc : ℚ × ℚ) seg =>
      let segTime := s.durations.getD seg 0
      let speedChange := (1 - s.coefficients.getD seg 0) * dda.deceleration * segTime
      (acc.1 + s.coefficients.getD seg 0 * (acc.2 + 0.5 * speedChange) * segTime,
       acc.2 + speedChange))
    (0, dda.endSpeed)).1

/-- Step 2 of the impulse path (lines 410-417): the provisional plan.
Each C `&&`/`||` of comparisons is embedded as the corresponding
proposition (with the `Bool` neighbour flags compared to `false`). -/
def proposePlan (s : ShaperState) (dda : DDA) (params : PrepParams) : InputShaperPlan :=
  { shapeAccelStart :=
      if params.accelClocks + s.clocksLostAtStart ≥ s.totalShapingClocks
          ∧ (dda.prevFrozenOrExecuting = false ∨ dda.prevWasAccelOnlyMove = false)
        then true else false,
    shapeAccelEnd :=
      if params.accelClocks + s.clocksLostAtEnd ≥ s.totalShapingClocks
          ∧ params.decelStartDistance > params.accelDistance
        then true else false,
    shapeDecelStart :=
      if params.decelClocks + s.clocksLostAtStart ≥ s.totalShapingClocks
          ∧ params.decelStartDistance > params.accelDistance
        then true else false,
    shapeDecelEnd :=
      if params.decelClocks + s.clocksLostAtEnd ≥ s.totalShapingClocks
          ∧ (dda.nextProvisional = false ∨ dda.nextIsDecelerationMove = false)
        then true else false }

/-- Step 3 of the impulse path (lines 420-460): acceleration-shaping
feasibility.  Returns the updated plan and params. -/
def verifyAccel (s : ShaperState) (dda : DDA) (plan : InputShaperPlan) (params : PrepParams) : InputShaperPlan × PrepParams :=
  if plan.shapeAccelStart = true ∨ plan.shapeAccelEnd = true then
    if plan.shapeAccelStart = true ∧ plan.shapeAccelEnd = true
        ∧ params.accelClocks < 2 * s.totalShapingClocks then
      ({ plan with shapeAccelStart := false, shapeAccelEnd := false }, params)
    else
      -- the C local `extraAccelDistance` is written out in full below
      if params.accelDistance
            + ((if plan.shapeAccelStart then GetExtraAccelStartDistance s dda else 0)
              + (if plan.shapeAccelEnd then GetExtraAccelEndDistance s dda else 0))
          ≤ params.decelStartDistance then
        (plan,
         { params with
             accelDistance := params.accelDistance
               + ((if plan.shapeAccelStart then GetExtraAccelStartDistance s dda else 0)
                 + (if plan.shapeAccelEnd then GetExtraAccelEndDistance s dda else 0)),
             accelClocks := params.accelClocks
               + (if plan.shapeAccelStart then s.clocksLostAtStart else 0)
               + (if plan.shapeAccelEnd then s.clocksLostAtEnd else 0) })
      else
        ({ plan with shapeAccelStart := false, shapeAccelEnd := false }, params)
  else (plan, params)

/-- Step 4 of the impulse path (lines 463-500): deceleration-shaping
feasibility, run after `verifyAccel` on its outputs. -/
def verifyDecel (s : ShaperState) (dda : DDA) (plan : InputShaperPlan) (params : PrepParams) : InputShaperPlan × PrepParams :=
  if plan.shapeDecelStart = true ∨ plan.shapeDecelEnd = true then
    if plan.shapeDecelStart = true ∧ plan.shapeDecelEnd = true
        ∧ params.decelClocks < 2 * s.totalShapingClocks then
      ({ plan with shapeDecelStart := false, shapeDecelEnd := false }, params)
    else
      -- the C local `extraDecelDistance` is written out in full below
      if params.accelDistance
            + ((if plan.shapeDecelStart then GetExtraDecelStartDistance s dda else 0)
              + (if plan.shapeDecelEnd then GetExtraDecelEndDistance s dda else 0))
          ≤ params.decelStartDistance then
        (plan,
         { params with
             decelStartDistance := params.decelStartDistance
               - ((if plan.shapeDecelStart then GetExtraDecelStartDistance s dda else 0)
                 + (if plan.shapeDecelEnd then GetExtraDecelEndDistance s dda else 0)),
             decelClocks := params.decelClocks
               + (if plan.shapeDecelStart then s.clocksLostAtStart else 0)
               + (if plan.shapeDecelEnd then s.clocksLostAtEnd else 0) })
      else
        ({ plan with shapeDecelStart := false, shapeDecelEnd := false }, params)
  else (plan, params)

/-- The impulse arm of `PlanShaping` (lines 402-502): propose the plan,
then verify acceleration and deceleration shaping in that order. -/
def planShapingImpulse (s : ShaperState) (dda : DDA) (params : PrepParams) : InputShaperPlan × PrepParams :=
  let plan0 := proposePlan s dda params
  let r1 := verifyAccel s dda plan0 params
  verifyDecel s dda r1.1 r1.2

/-- The acceleration-side proposal of the DAA arm (lines 278-297):
returns `(proposedAcceleration, proposedAccelDistance,
adjustAcceleration)`. -/
def daaAccelProposal (idealPeriod : ℚ) (dda : DDA) : ℚ × ℚ × Bool :=
  if dda.topSpeed > dda.startSpeed
      ∧ (dda.prevFrozenOrExecuting = false ∨ dda.prevWasAccelOnlyMove = false) then
    let accelTime := (dda.topSpeed - dda.startSpeed) / dda.acceleration
    let pr : ℚ × Bool :=
      if accelTime < idealPeriod then ((dda.topSpeed - dda.startSpeed) / idealPeriod, true)
      else if accelTime < idealPeriod * 2 then ((dda.topSpeed - dda.startSpeed) / (idealPeriod * 2), true)
      else (dda.acceleration, false)
    if pr.2 then
      (pr.1, (dda.topSpeed * dda.topSpeed - dda.startSpeed * dda.startSpeed) / (2 * pr.1), true)
    else (pr.1, dda.accelDistance, false)
  else (dda.acceleration, dda.accelDistance, false)

/-- The deceleration-side proposal of the DAA arm (lines 299-318). -/
def daaDecelProposal (idealPeriod : ℚ) (dda : DDA) : ℚ × ℚ × Bool :=
  if dda.nextProvisional = false ∨ dda.nextIsDecelerationMove = false then
    let decelTime := (dda.topSpeed - dda.endSpeed) / dda.deceleration
    let pr : ℚ × Bool :=
      if decelTime < idealPeriod then ((dda.topSpeed - dda.endSpeed) / idealPeriod, true)
      else if decelTime < idealPeriod * 2 then ((dda.topSpeed - dda.endSpeed) / (idealPeriod * 2), true)
      else (dda.deceleration, false)
    if pr.2 then
      (pr.1, (dda.topSpeed * dda.topSpeed - dda.endSpeed * dda.endSpeed) / (2 * pr.1), true)
    else (pr.1, dda.decelDistance, false)
  else (dda.deceleration, dda.decelDistance, false)

/-- The DAA arm of `PlanShaping` (lines 273-393): reconcile the two
proposals and rewrite the move, or leave it untouched (`break`).
`idealPeriod = durations[0] = 1/ω_d` for DAA. -/
def daaAdjust (idealPeriod minimumAcceleration : ℚ) (dda : DDA) : DDA :=
  let ap := daaAccelProposal idealPeriod dda
  let dp := daaDecelProposal idealPeriod dda
  if ap.2.2 || dp.2.2 then
    if ap.2.1 + dp.2.1 ≤ dda.totalDistance then
      if ap.1 < minimumAcceleration ∨ dp.1 < minimumAcceleration then dda
      else
        { dda with
            acceleration := ap.1, deceleration := dp.1,
            accelDistance := ap.2.1, decelDistance := dp.2.1 }
    else
      let twiceTotalDistance := 2 * dda.totalDistance
      let proposedTopSpeed := dda.totalDistance / idealPeriod - (dda.startSpeed + dda.endSpeed) / 2
      if proposedTopSpeed > dda.startSpeed ∧ proposedTopSpeed > dda.endSpeed then
        let pA := (twiceTotalDistance - ((3 * dda.startSpeed + dda.endSpeed) * idealPeriod)) / (2 * (idealPeriod * idealPeriod))
        let pD := (twiceTotalDistance - ((dda.startSpeed + 3 * dda.endSpeed) * idealPeriod)) / (2 * (idealPeriod * idealPeriod))
        if pA < minimumAcceleration ∨ pD < minimumAcceleration
            ∨ pA > dda.acceleration ∨ pD > dda.deceleration then dda
        else
          { dda with
              topSpeed := proposedTopSpeed,
              acceleration := pA, deceleration := pD,
              accelDistance := dda.startSpeed * idealPeriod + (pA * (idealPeriod * idealPeriod)) / 2,
              decelDistance := dda.endSpeed * idealPeriod + (pD * (idealPeriod * idealPeriod)) / 2 }
      else if dda.startSpeed < dda.endSpeed then
        let pA := (dda.endSpeed * dda.endSpeed - dda.startSpeed * dda.startSpeed) / twiceTotalDistance
        if pA < minimumAcceleration then dda
        else
          { dda with
              acceleration := pA, topSpeed := dda.endSpeed,
              accelDistance := dda.totalDistance, decelDistance := 0 }
      else if dda.startSpeed > dda.endSpeed then
        let pD := (dda.startSpeed * dda.startSpeed - dda.endSpeed * dda.endSpeed) / twiceTotalDistance
        if pD < minimumAcceleration then dda
        else
          { dda with
              deceleration := pD, topSpeed := dda.startSpeed,
              accelDistance := 0, decelDistance := dda.totalDistance }
      else dda
  else dda

/-- M593 arguments for a one-impulse custom shaper `H0.5 T0.01 F50`
(used as a concrete synthesis run below). -/
def customHalfArgs : ConfigArgs :=
  { F := some 50, L := Option.none, S := Option.none,
    P := some "custom", H := some [1/2], T := some [1/100] }

/-- M593 arguments `P"ei2" F50 S0`. -/
def ei2Args : ConfigArgs :=
  { F := some 50, L := Option.none, S := some 0,
    P := some "ei2", H := Option.none, T := Option.none }

/-- M593 arguments for a custom shaper whose `T` array is shorter than its
`H` array. -/
def mismatchArgs : ConfigArgs :=
  { F := Option.none, L := Option.none, S := Option.none,
    P := some "custom", H := some [1/2, 3/4], T := some [1/100] }

/-- M593 arguments `F123 S0.5 L0.25 P"zzz"`: an unknown shaper type
preceded by frequency, damping and minimum-acceleration parameters. -/
def badTypeArgs : ConfigArgs :=
  { F := some 123, L := some 0.25, S := some 0.5,
    P := some "zzz", H := Option.none, T := Option.none }

/-- M593 arguments for a two-impulse custom shaper
`H[0.1, 0.5] T[0.01, 0.01] F50` whose lost-time constants differ strongly
between start and end (`clocksLostAtStart = 6750`, `clocksLostAtEnd =
750`, `totalShapingClocks = 7500`). -/
def symmShaperArgs : ConfigArgs :=
  { F := some 50, L := Option.none, S := Option.none,
    P := some "custom", H := some [1/10, 1/2], T := some [1/100, 1/100] }

/-- The shaper state synthesised from `symmShaperArgs`. -/
def symmShaper : ShaperState := (Configure initialShaperState symmShaperArgs 1 1).1

/-- A fully symmetric move: `startSpeed = endSpeed = 10`, `topSpeed = 20`,
`acceleration = deceleration = 2000`, `totalDistance = 10`, both phase
distances `(20² − 10²)/(2·2000) = 0.075`, both neighbours idle. -/
def symmDDA : DDA :=
  { startSpeed := 10, topSpeed := 20, endSpeed := 10,
    acceleration := 2000, deceleration := 2000, totalDistance := 10,
    accelDistance := 3/40, decelDistance := 3/40,
    prevFrozenOrExecuting := false, prevWasAccelOnlyMove := false,
    nextProvisional := false, nextIsDecelerationMove := false }

/-- The matching prepared parameters: both phases last
`(20 − 10)/2000 · 750000 = 3750` step clocks and
`decelStartDistance = 10 − 0.075 = 9.925`. -/
def symmParams : PrepParams :=
  { accelDistance := 3/40, decelStartDistance := 397/40,
    accelClocks := 3750, decelClocks := 3750 }

/-- A plan proposing both acceleration-shaping flags. -/
def planBoth : InputShaperPlan :=
  { shapeAccelStart := true, shapeAccelEnd := true,
    shapeDecelStart := false, shapeDecelEnd := false }

/-- A move with `topSpeed ≤ startSpeed` whose next move is a provisional
deceleration move (so the DAA deceleration side proposes nothing). -/
def slowDDA : DDA :=
  { startSpeed := 10, topSpeed := 5, endSpeed := 5,
    acceleration := 500, deceleration := 500, totalDistance := 10,
    accelDistance := 0, decelDistance := 1/2,
    prevFrozenOrExecuting := false, prevWasAccelOnlyMove := false,
    nextProvisional := true, nextIsDecelerationMove := true }

end AxisShaper

namespace AxisShaper

/-- Evaluation lemma: the name `"custom"` parses to the custom type. -/
theorem parse_custom : InputShaperType.parse "custom" = some InputShaperType.custom := rfl

/-- Evaluation lemma: the name `"ei2"` parses to the EI2 type. -/
theorem parse_ei2 : InputShaperType.parse "ei2" = some InputShaperType.ei2 := rfl

/-- Evaluation lemma: the name `"zzz"` is not a valid shaper type. -/
theorem parse_zzz : InputShaperType.parse "zzz" = Option.none := rfl

/-- The accumulation loop of lines 196-205 computes the three partial sums
over `i ∈ [0, numExtraImpulses − 1)`. -/
theorem shaperDerivedLoop_sum (c d : List ℚ) (n : ℕ) :
    shaperDerivedLoop c d n =
      (∑ i in Finset.range (n - 1), d.getD i 0,
       ∑ i in Finset.range (n - 1), (1 - c.getD i 0) * d.getD i 0,
       ∑ i in Finset.range (n - 1), c.getD i 0 * d.getD i 0) := by
  unfold shaperDerivedLoop
  generalize n - 1 = m
  induction m with
  | zero => simp
  | succ m ih =>
      rw [List.range_succ, List.foldl_append, ih]
      simp [Finset.sum_range_succ]

/-- C4: for every synthesised `ShaperParams`,
`clocksLostAtStart + clocksLostAtEnd = totalShapingClocks`, and both sides
equal `StepClockRate` times the sum of `durations[i]` for
`i ∈ [0, numExtraImpulses − 1)`; exact over `ℚ` (the embedding of the
float arithmetic). -/
theorem clocksLost_partition (s : ShaperState) :
    (finishSynthesis s).1.clocksLostAtStart + (finishSynthesis s).1.clocksLostAtEnd
        = (finishSynthesis s).1.totalShapingClocks
      ∧ (finishSynthesis s).1.totalShapingClocks
        = StepClockRate * ∑ i in Finset.range ((finishSynthesis s).1.numExtraImpulses - 1),
            (finishSynthesis s).1.durations.getD i 0 := by
  unfold finishSynthesis
  simp only [shaperDerivedLoop_sum]
  constructor
  · rw [← add_mul]
    congr 1
    rw [← Finset.sum_add_distrib]
    exact Finset.sum_congr rfl (fun i _ => by ring)
  · exact mul_comm _ _

/-- C3 (counterexample): the custom synthesis run `H0.5 T0.01` produces
`numExtraImpulses = 1` with `durations = [0.01]`, yet
`totalDuration = 0 ≠ 0.01`, because the loop at line 200 runs over
`i < numExtraImpulses − 1` only.  So the sum of all `n` durations does not
equal `totalDuration`. -/
theorem totalDuration_ne_sum_counterexample :
    (Configure initialShaperState customHalfArgs 1 1).1.numExtraImpulses = 1
      ∧ (Configure initialShaperState customHalfArgs 1 1).1.durations = [1/100]
      ∧ (Configure initialShaperState customHalfArgs 1 1).1.totalDuration = 0
      ∧ (Configure initialShaperState customHalfArgs 1 1).1.totalDuration
          ≠ ((Configure initialShaperState customHalfArgs 1 1).1.durations).sum := by
  norm_num [Configure, ConfigureSwitch, finishSynthesis, shaperDerivedLoop, overlappedLoop,
    initialShaperState, customHalfArgs, parse_custom, MaxExtraImpulses, StepClockRate,
    List.range_succ]

/-- C3 (amended): for every synthesised `ShaperParams`, `totalDuration`
equals the sum of the first `numExtraImpulses − 1` durations (the loop
bound at line 200 is `< numExtraImpulses − 1`), not of all of them. -/
theorem totalDuration_eq_first_sum (s : ShaperState) :
    (finishSynthesis s).1.totalDuration
      = ∑ i in Finset.range ((finishSynthesis s).1.numExtraImpulses - 1),
          (finishSynthesis s).1.durations.getD i 0 := by
  unfold finishSynthesis
  simp only [shaperDerivedLoop_sum]

/-- C5: configuring `P"ei2" F50 S0` (so `dampedFrequency = 50·√(1−0²) =
50` exactly) synthesises `numExtraImpulses = 3` with coefficients
`[0.16054, 0.49965, 0.84054]` and durations
`[0.0099780, 0.0099716, 0.0100344]` seconds; `k` (unused by the EI2 arm)
is arbitrary. -/
theorem ei2_at_50Hz_zeta0 (k : ℚ) :
    dampedFrequencyOf 50 0 = 50
      ∧ (Configure initialShaperState ei2Args 50 k).1.numExtraImpulses = 3
      ∧ (Configure initialShaperState ei2Args 50 k).1.coefficients
          = [0.16054, 0.16054 + 0.33911, 0.16054 + 0.33911 + 0.34089]
      ∧ (Configure initialShaperState ei2Args 50 k).1.coefficients
          = [0.16054, 0.49965, 0.84054]
      ∧ (Configure initialShaperState ei2Args 50 k).1.durations
          = [0.0099780, 0.0099716, 0.0100344] := by
  refine ⟨?_, ?_, ?_, ?_, ?_⟩
  · unfold dampedFrequencyOf
    norm_num
  all_goals
    norm_num [Configure, ConfigureSwitch, finishSynthesis, shaperDerivedLoop, overlappedLoop,
      ei2Coefficients, ei2Durations, initialShaperState, ei2Args, parse_ei2, MaxExtraImpulses,
      StepClockRate, List.range_succ]

/-- C1: code bug.  The guard at line 220 reads `if (maxVal > val)`, so the
`maxVal` accumulator (initialised to 0.0) is only ever replaced by
*smaller* values; since every raw overlapped coefficient is positive,
`maxVal` remains 0 and `scaling = 1.0/maxVal` divides by zero, so the
peak of the scaled table is not 1.  Concretely, for the `H0.5 T0.01` custom
run the raw table is `[0.5, 0.5]`, the accumulated `maxVal` is 0, and the
scaled table (with `1/0 = 0` in the exact-arithmetic model; `+inf` in
float) is `[0, 0]` — its maximum is not 1. -/
theorem overlapped_peak_bug :
    (overlappedLoop [(1 : ℚ)/2] 1).1 = [1/2, 1/2]
      ∧ (overlappedLoop [(1 : ℚ)/2] 1).2.1 = 0
      ∧ (Configure initialShaperState customHalfArgs 1 1).1.overlappedCoefficients = [0, 0] := by
  norm_num [Configure, ConfigureSwitch, finishSynthesis, shaperDerivedLoop, overlappedLoop,
    initialShaperState, customHalfArgs, parse_custom, MaxExtraImpulses, StepClockRate,
    List.range_succ]

/-- C6: configuring type `custom` with a duration array whose element
count differs from the count of the amplitude array replies
`"Too few durations given"`, reverts the type to `none` and returns an
error (lines 111-122). -/
theorem custom_duration_mismatch (s : ShaperState) (gb : ConfigArgs) (df k : ℚ)
    (h t : List ℚ) (hP : gb.P = some "custom") (hH : gb.H = some h) (hT : gb.T = some t)
    (hlen : h.length ≤ MaxExtraImpulses) (hne : t.length ≠ h.length) :
    (Configure s gb df k).2 = ConfigOutcome.error "Too few durations given"
      ∧ (Configure s gb df k).1.type = InputShaperType.none := by
  unfold Configure
  rw [hP]
  simp [parse_custom, ConfigureSwitch, hH, hT, if_neg (Nat.not_lt.mpr hlen), if_pos hne]

/-- Witness for C6 at `H[0.5, 0.75] T[0.01]` (two amplitudes, one
duration). -/
theorem custom_duration_mismatch_witness :
    mismatchArgs.P = some "custom" ∧ mismatchArgs.H = some [1/2, 3/4]
      ∧ mismatchArgs.T = some [1/100]
      ∧ ((Configure initialShaperState mismatchArgs 1 1).2
            = ConfigOutcome.error "Too few durations given"
        ∧ (Configure initialShaperState mismatchArgs 1 1).1.type = InputShaperType.none) :=
  ⟨rfl, rfl, rfl,
   custom_duration_mismatch initialShaperState mismatchArgs 1 1 [1/2, 3/4] [1/100]
     rfl rfl rfl (by decide) (by decide)⟩

/-- `ConfigureSwitch` never touches the `frequency` field. -/
theorem ConfigureSwitch_frequency (s : ShaperState) (gb : ConfigArgs) (df k : ℚ) :
    (ConfigureSwitch s gb df k).1.frequency = s.frequency := by
  unfold ConfigureSwitch finishSynthesis
  repeat' split
  all_goals rfl

/-- `ConfigureSwitch` never touches the `zeta` field. -/
theorem ConfigureSwitch_zeta (s : ShaperState) (gb : ConfigArgs) (df k : ℚ) :
    (ConfigureSwitch s gb df k).1.zeta = s.zeta := by
  unfold ConfigureSwitch finishSynthesis
  repeat' split
  all_goals rfl

/-- `ConfigureSwitch` never touches the `minimumAcceleration` field. -/
theorem ConfigureSwitch_minimumAcceleration (s : ShaperState) (gb : ConfigArgs) (df k : ℚ) :
    (ConfigureSwitch s gb df k).1.minimumAcceleration = s.minimumAcceleration := by
  unfold ConfigureSwitch finishSynthesis
  repeat' split
  all_goals rfl

/-- C10: when `Configure` returns an error (unknown type name, or custom
with a mismatched duration count), the `F`, `S` and `L` values applied
earlier in the same command are still in the resulting state — nothing is
rolled back. -/
theorem configure_error_keeps_params (s : ShaperState) (gb : ConfigArgs) (df k : ℚ)
    (r : String) (herr : (Configure s gb df k).2 = ConfigOutcome.error r) :
    (Configure s gb df k).1.frequency = (match gb.F with | some f => f | _ => s.frequency)
      ∧ (Configure s gb df k).1.zeta = (match gb.S with | some z => z | _ => s.zeta)
      ∧ (Configure s gb df k).1.minimumAcceleration
          = (match gb.L with | some l => max l 1 | _ => s.minimumAcceleration) := by
  clear herr
  rcases gb with ⟨F, L, S, P, H, T⟩
  unfold Configure
  cases P with
  | none =>
      cases F <;> cases L <;> cases S <;>
        simp [ConfigureSwitch_frequency, ConfigureSwitch_zeta,
          ConfigureSwitch_minimumAcceleration] <;>
        split <;> simp
  | some name =>
      cases hp : InputShaperType.parse name with
      | none =>
          cases F <;> cases L <;> cases S <;> simp [hp]
      | some ty =>
          cases F <;> cases L <;> cases S <;>
            simp [hp, ConfigureSwitch_frequency, ConfigureSwitch_zeta,
              ConfigureSwitch_minimumAcceleration]

/-- Witness for C10: `F123 S0.5 L0.25 P"zzz"` errors with the unknown-type
reply, yet the state now has `frequency = 123`, `zeta = 0.5` and
`minimumAcceleration = max 0.25 1 = 1` (the `L` clamp). -/
theorem configure_error_keeps_params_witness :
    (Configure initialShaperState badTypeArgs 1 1).2
        = ConfigOutcome.error ("Unsupported input shaper type \x27zzz\x27")
      ∧ (Configure initialShaperState badTypeArgs 1 1).1.frequency = 123
      ∧ (Configure initialShaperState badTypeArgs 1 1).1.zeta = 0.5
      ∧ (Configure initialShaperState badTypeArgs 1 1).1.minimumAcceleration = 1 := by
  have herr : (Configure initialShaperState badTypeArgs 1 1).2
      = ConfigOutcome.error ("Unsupported input shaper type \x27zzz\x27") := rfl
  have h := configure_error_keeps_params initialShaperState badTypeArgs 1 1
    ("Unsupported input shaper type \x27zzz\x27") herr
  refine ⟨herr, h.1, h.2.1, ?_⟩
  rw [h.2.2]
  norm_num [badTypeArgs]

/-- Evaluation of the custom `H[0.1, 0.5] T[0.01, 0.01]` synthesis run:
the fields `planShapingImpulse` consults. -/
theorem symmShaper_eval :
    symmShaper.numExtraImpulses = 2
      ∧ symmShaper.coefficients = [1/10, 1/2]
      ∧ symmShaper.durations = [1/100, 1/100]
      ∧ symmShaper.clocksLostAtStart = 6750
      ∧ symmShaper.clocksLostAtEnd = 750
      ∧ symmShaper.totalShapingClocks = 7500 := by
  norm_num [symmShaper, symmShaperArgs, Configure, ConfigureSwitch, finishSynthesis,
    shaperDerivedLoop, overlappedLoop, initialShaperState, parse_custom, MaxExtraImpulses,
    StepClockRate, List.range_succ]

/-- C2 (counterexample): a fully symmetric move (`startSpeed = endSpeed`,
`acceleration = deceleration`, equal phase clocks and distances, both
neighbours idle) for which the plan returned by the impulse path has
`shapeAccelStart = true` but `shapeDecelEnd = false`: with
`accelClocks = 3750`, `clocksLostAtStart = 6750` and `clocksLostAtEnd =
750`, the start-flag threshold `3750 + 6750 ≥ 7500` holds while the
end-flag threshold `3750 + 750 ≥ 7500` fails, and the feasibility checks
accept the surviving flags.  So `shapeAccelStart = shapeDecelEnd` fails. -/
theorem plan_symmetry_counterexample :
    symmDDA.startSpeed = symmDDA.endSpeed
      ∧ symmDDA.acceleration = symmDDA.deceleration
      ∧ symmParams.accelClocks = symmParams.decelClocks
      ∧ symmParams.accelDistance = symmDDA.totalDistance - symmParams.decelStartDistance
      ∧ symmDDA.prevFrozenOrExecuting = false ∧ symmDDA.prevWasAccelOnlyMove = false
      ∧ symmDDA.nextProvisional = false ∧ symmDDA.nextIsDecelerationMove = false
      ∧ (planShapingImpulse symmShaper symmDDA symmParams).1.shapeAccelStart = true
      ∧ (planShapingImpulse symmShaper symmDDA symmParams).1.shapeDecelEnd = false := by
  norm_num [planShapingImpulse, proposePlan, verifyAccel, verifyDecel,
    GetExtraAccelStartDistance, GetExtraAccelEndDistance, GetExtraDecelStartDistance,
    GetExtraDecelEndDistance, symmShaper, symmShaperArgs, symmDDA, symmParams,
    Configure, ConfigureSwitch, finishSynthesis, shaperDerivedLoop, overlappedLoop,
    initialShaperState, parse_custom, MaxExtraImpulses, StepClockRate, List.range_succ]

/-- C2 (amended): for a symmetric move (equal start/end speeds, equal
accel/decel magnitudes, equal phase clocks, both neighbours idle) with a
positive steady-speed window (`decelStartDistance > accelDistance`), the
*proposed* plan of step 2 pairs the flags as
`shapeAccelStart = shapeDecelStart` and `shapeAccelEnd = shapeDecelEnd`:
both start flags share `clocksLostAtStart` and both end flags share
`clocksLostAtEnd`. -/
theorem proposed_plan_symmetry (s : ShaperState) (dda : DDA) (params : PrepParams)
    (h1 : dda.startSpeed = dda.endSpeed) (h2 : dda.acceleration = dda.deceleration)
    (h3 : params.accelClocks = params.decelClocks)
    (h4 : dda.prevFrozenOrExecuting = false) (h5 : dda.nextProvisional = false)
    (h6 : params.decelStartDistance > params.accelDistance) :
    (proposePlan s dda params).shapeAccelStart = (proposePlan s dda params).shapeDecelStart
      ∧ (proposePlan s dda params).shapeAccelEnd = (proposePlan s dda params).shapeDecelEnd := by
  unfold proposePlan
  simp [h3, h4, h5, h6]

/-- Witness for the amended C2 at the symmetric move above. -/
theorem proposed_plan_symmetry_witness :
    symmDDA.startSpeed = symmDDA.endSpeed
      ∧ symmParams.decelStartDistance > symmParams.accelDistance
      ∧ ((proposePlan symmShaper symmDDA symmParams).shapeAccelStart
            = (proposePlan symmShaper symmDDA symmParams).shapeDecelStart
        ∧ (proposePlan symmShaper symmDDA symmParams).shapeAccelEnd
            = (proposePlan symmShaper symmDDA symmParams).shapeDecelEnd) :=
  ⟨rfl, by norm_num [symmParams],
   proposed_plan_symmetry symmShaper symmDDA symmParams rfl rfl rfl rfl rfl
     (by norm_num [symmParams])⟩

/-- C7: the acceleration-feasibility step.  When both acceleration flags
are proposed and `accelClocks < 2·totalShapingClocks`, both flags are
cleared.  Otherwise, with `extraAccel` the sum of the closed-form extra
distances for the proposed flags: if
`accelDistance + extraAccel ≤ decelStartDistance` the plan is kept,
`accelDistance` grows by `extraAccel` and `accelClocks` gains
`clocksLostAtStart`/`clocksLostAtEnd` per set flag (the deceleration
parameters untouched); otherwise both flags are cleared and the phase
parameters stay unchanged. -/
theorem verifyAccel_feasibility (s : ShaperState) (dda : DDA) (plan : InputShaperPlan)
    (params : PrepParams)
    (hp : plan.shapeAccelStart = true ∨ plan.shapeAccelEnd = true) :
    ((plan.shapeAccelStart = true ∧ plan.shapeAccelEnd = true
        ∧ params.accelClocks < 2 * s.totalShapingClocks) →
      (verifyAccel s dda plan params).1.shapeAccelStart = false
        ∧ (verifyAccel s dda plan params).1.shapeAccelEnd = false
        ∧ (verifyAccel s dda plan params).2 = params)
    ∧ (¬(plan.shapeAccelStart = true ∧ plan.shapeAccelEnd = true
        ∧ params.accelClocks < 2 * s.totalShapingClocks) →
      ((params.accelDistance
            + ((if plan.shapeAccelStart then GetExtraAccelStartDistance s dda else 0)
              + (if plan.shapeAccelEnd then GetExtraAccelEndDistance s dda else 0))
          ≤ params.decelStartDistance →
        (verifyAccel s dda plan params).1 = plan
          ∧ (verifyAccel s dda plan params).2.accelDistance
              = params.accelDistance
                + ((if plan.shapeAccelStart then GetExtraAccelStartDistance s dda else 0)
                  + (if plan.shapeAccelEnd then GetExtraAccelEndDistance s dda else 0))
          ∧ (verifyAccel s dda plan params).2.accelClocks
              = params.accelClocks
                + (if plan.shapeAccelStart then s.clocksLostAtStart else 0)
                + (if plan.shapeAccelEnd then s.clocksLostAtEnd else 0)
          ∧ (verifyAccel s dda plan params).2.decelStartDistance = params.decelStartDistance
          ∧ (verifyAccel s dda plan params).2.decelClocks = params.decelClocks)
      ∧ (¬(params.accelDistance
            + ((if plan.shapeAccelStart then GetExtraAccelStartDistance s dda else 0)
              + (if plan.shapeAccelEnd then GetExtraAccelEndDistance s dda else 0))
          ≤ params.decelStartDistance) →
        (verifyAccel s dda plan params).1.shapeAccelStart = false
          ∧ (verifyAccel s dda plan params).1.shapeAccelEnd = false
          ∧ (verifyAccel s dda plan params).2 = params))) := by
  unfold verifyAccel
  rw [if_pos hp]
  by_cases hboth : plan.shapeAccelStart = true ∧ plan.shapeAccelEnd = true
      ∧ params.accelClocks < 2 * s.totalShapingClocks
  · rw [if_pos hboth]
    exact ⟨fun _ => ⟨rfl, rfl, rfl⟩, fun hn => absurd hboth hn⟩
  · rw [if_neg hboth]
    refine ⟨fun h => absurd h hboth, fun _ => ?_⟩
    by_cases hfit : params.accelDistance
        + ((if plan.shapeAccelStart then GetExtraAccelStartDistance s dda else 0)
          + (if plan.shapeAccelEnd then GetExtraAccelEndDistance s dda else 0))
        ≤ params.decelStartDistance
    · rw [if_pos hfit]
      exact ⟨fun _ => ⟨rfl, rfl, rfl, rfl, rfl⟩, fun hn => absurd hfit hn⟩
    · rw [if_neg hfit]
      exact ⟨fun h => absurd h hfit, fun _ => ⟨rfl, rfl, rfl⟩⟩

/-- Witness for C7: with both flags proposed and
`accelClocks = 3750 < 2·7500`, both acceleration flags come back
cleared. -/
theorem verifyAccel_feasibility_witness :
    (planBoth.shapeAccelStart = true ∨ planBoth.shapeAccelEnd = true)
      ∧ ((verifyAccel symmShaper symmDDA planBoth symmParams).1.shapeAccelStart = false
        ∧ (verifyAccel symmShaper symmDDA planBoth symmParams).1.shapeAccelEnd = false
        ∧ (verifyAccel symmShaper symmDDA planBoth symmParams).2 = symmParams) :=
  ⟨Or.inl rfl,
   (verifyAccel_feasibility symmShaper symmDDA planBoth symmParams (Or.inl rfl)).1
     ⟨rfl, rfl, by rw [symmShaper_eval.2.2.2.2.2]; norm_num [symmParams]⟩⟩

/-- C8: every DAA path respects the `minimumAcceleration` floor — if the
adjuster rewrites the acceleration of the move (resp. deceleration) magnitude,
the committed value is at least `minimumAcceleration`; each commit point
is guarded by a comparison against the floor, and a proposal below it
leaves the move unadjusted. -/
theorem daa_respects_minimum_acceleration (idealPeriod minimumAcceleration : ℚ) (dda : DDA) :
    ((daaAdjust idealPeriod minimumAcceleration dda).acceleration = dda.acceleration
        ∨ minimumAcceleration ≤ (daaAdjust idealPeriod minimumAcceleration dda).acceleration)
      ∧ ((daaAdjust idealPeriod minimumAcceleration dda).deceleration = dda.deceleration
        ∨ minimumAcceleration ≤ (daaAdjust idealPeriod minimumAcceleration dda).deceleration) := by
  simp only [daaAdjust]
  split_ifs with h1 h2 h3 h4 h5 h6 h7 h8 h9
  · exact ⟨Or.inl rfl, Or.inl rfl⟩
  · push_neg at h3
    exact ⟨Or.inr h3.1, Or.inr h3.2⟩
  · exact ⟨Or.inl rfl, Or.inl rfl⟩
  · push_neg at h5
    exact ⟨Or.inr h5.1, Or.inr h5.2.1⟩
  · exact ⟨Or.inl rfl, Or.inl rfl⟩
  · push_neg at h7
    exact ⟨Or.inr h7, Or.inl rfl⟩
  · exact ⟨Or.inl rfl, Or.inl rfl⟩
  · push_neg at h9
    exact ⟨Or.inl rfl, Or.inr h9⟩
  · exact ⟨Or.inl rfl, Or.inl rfl⟩
  · exact ⟨Or.inl rfl, Or.inl rfl⟩

/-- C9: with `topSpeed ≤ startSpeed` the DAA acceleration side proposes no
adjustment, and if the deceleration side also proposes none, the kinematic fields
acceleration, deceleration and phase distances all keep their input
values. -/
theorem daa_keeps_move_when_no_proposals (idealPeriod minimumAcceleration : ℚ) (dda : DDA)
    (h1 : dda.topSpeed ≤ dda.startSpeed)
    (h2 : (daaDecelProposal idealPeriod dda).2.2 = false) :
    (daaAccelProposal idealPeriod dda).2.2 = false
      ∧ (daaAdjust idealPeriod minimumAcceleration dda).acceleration = dda.acceleration
      ∧ (daaAdjust idealPeriod minimumAcceleration dda).deceleration = dda.deceleration
      ∧ (daaAdjust idealPeriod minimumAcceleration dda).accelDistance = dda.accelDistance
      ∧ (daaAdjust idealPeriod minimumAcceleration dda).decelDistance = dda.decelDistance := by
  have hA : (daaAccelProposal idealPeriod dda).2.2 = false := by
    unfold daaAccelProposal
    rw [if_neg (fun hc => absurd hc.1 (not_lt.mpr h1))]
  have hmain : daaAdjust idealPeriod minimumAcceleration dda = dda := by
    unfold daaAdjust
    simp [hA, h2]
  exact ⟨hA, by rw [hmain], by rw [hmain], by rw [hmain], by rw [hmain]⟩

/-- Witness for C9 at `slowDDA` (`topSpeed = 5 ≤ startSpeed = 10`, next
move a provisional deceleration move). -/
theorem daa_keeps_move_when_no_proposals_witness :
    slowDDA.topSpeed ≤ slowDDA.startSpeed
      ∧ (daaDecelProposal (1/40) slowDDA).2.2 = false
      ∧ ((daaAccelProposal (1/40) slowDDA).2.2 = false
        ∧ (daaAdjust (1/40) 10 slowDDA).acceleration = slowDDA.acceleration
        ∧ (daaAdjust (1/40) 10 slowDDA).deceleration = slowDDA.deceleration
        ∧ (daaAdjust (1/40) 10 slowDDA).accelDistance = slowDDA.accelDistance
        ∧ (daaAdjust (1/40) 10 slowDDA).decelDistance = slowDDA.decelDistance) :=
  ⟨by norm_num [slowDDA], rfl,
   daa_keeps_move_when_no_proposals (1/40) 10 slowDDA (by norm_num [slowDDA]) rfl⟩

end AxisShaper
